import Mathlib

/-!
Verification of the IRS weather data provider
(`pcse/fileinput/irsweatherdataprovider.py`).

The Python code is shallowly embedded: strings are lists of characters
(`PyStr`), Python floats are modelled as exact rationals (every numeric value
appearing in the claims is exactly representable in binary64, where the
operations involved are exact), fallible operations return `Option`/`Except`,
and the filesystem is an explicit map from paths to file data.

Rationals are represented by the executable type `Q` below (numerator,
positive denominator, kept in lowest terms by the smart constructor), so that
every concrete run of the embedded code can be checked by kernel reduction.
-/

set_option autoImplicit false
set_option maxRecDepth 100000

instance {ε α : Type} [DecidableEq ε] [DecidableEq α] : DecidableEq (Except ε α) := fun x y =>
  match x, y with
  | .error e, .error f =>
    if h : e = f then isTrue (by rw [h]) else isFalse (fun hh => h (Except.error.inj hh))
  | .ok a, .ok b =>
    if h : a = b then isTrue (by rw [h]) else isFalse (fun hh => h (Except.ok.inj hh))
  | .error _, .ok _ => isFalse (fun hh => Except.noConfusion hh)
  | .ok _, .error _ => isFalse (fun hh => Except.noConfusion hh)

/-- A Python string, as a list of characters. -/
abbrev PyStr := List Char

/-- Python `s[1:-1]`: drop the first and the last character. -/
def pySlice1m1 (s : PyStr) : PyStr := (s.drop 1).dropLast

/-- Python `str.split(sep)` with an explicit one-character separator:
splits at every occurrence, keeping empty pieces, and yields `[""]` on `""`. -/
def pySplit (sep : Char) : List Char → List (List Char)
  | [] => [[]]
  | c :: cs =>
    if c = sep then [] :: pySplit sep cs
    else
      match pySplit sep cs with
      | [] => [[c]]
      | t :: ts => (c :: t) :: ts

/-- Euclid's algorithm on an explicit structural fuel; with fuel above the
first argument it computes the greatest common divisor. -/
def gcdFuel : Nat → Nat → Nat → Nat
  | 0, _, b => b
  | f + 1, a, b => if a = 0 then b else gcdFuel f (b % a) a

/-- An exact rational number: integer numerator over positive denominator.
Every value produced by the operations below is in lowest terms, so structural
equality of produced values coincides with equality of the rationals they
denote. -/
structure Q where
  num : Int
  den : Nat
deriving DecidableEq, Repr

/-- Smart constructor: `Q.norm n d` is the rational `n / d` in lowest terms
with positive denominator (`d = 0` never arises in the embedded code). -/
def Q.norm (n d : Int) : Q :=
  if d = 0 then ⟨0, 1⟩
  else
    let n1 : Int := if d < 0 then -n else n
    let dn : Nat := d.natAbs
    let g : Nat := gcdFuel (n1.natAbs + 1) n1.natAbs dn
    ⟨n1 / (g : Int), dn / g⟩

def Q.ofInt (n : Int) : Q := ⟨n, 1⟩

def Q.mul (a b : Q) : Q := Q.norm (a.num * b.num) ((a.den : Int) * (b.den : Int))

def Q.div (a b : Q) : Q := Q.norm (a.num * (b.den : Int)) ((a.den : Int) * b.num)

/-- The rational `10 ^ e` for an integer exponent. -/
def Q.powTen (e : Int) : Q :=
  if 0 ≤ e then ⟨(10 : Int) ^ e.toNat, 1⟩ else ⟨1, 10 ^ (-e).toNat⟩

/-- Strict order on `Q`, by cross-multiplication. -/
def Q.lt (a b : Q) : Prop := a.num * (b.den : Int) < b.num * (a.den : Int)

instance (a b : Q) : Decidable (Q.lt a b) := by
  unfold Q.lt
  infer_instance

/-- Decimal digit test, as in Python's float grammar. -/
def isDigit (c : Char) : Bool := '0' ≤ c && c ≤ '9'

/-- Value of a digit string, most significant first. -/
def digitsToNat (ds : PyStr) : Nat :=
  List.foldl (fun a c => 10 * a + (c.toNat - '0'.toNat)) 0 ds

/-- Exponent part of a float literal: optional sign followed by digits,
consuming the whole remaining input. -/
def parseExpDigits (s : PyStr) : Option Int :=
  match s with
  | '+' :: cs => if !cs.isEmpty && cs.all isDigit then some ((digitsToNat cs : Nat) : Int) else none
  | '-' :: cs => if !cs.isEmpty && cs.all isDigit then some (-((digitsToNat cs : Nat) : Int)) else none
  | cs => if !cs.isEmpty && cs.all isDigit then some ((digitsToNat cs : Nat) : Int) else none

/-- Core of Python `float(s)` on an already-stripped string: optional sign,
digits with an optional fractional part, optional exponent; `none` models the
`ValueError` raised on anything else (trailing junk included). -/
def pyFloatCore (s : PyStr) : Option Q :=
  let sign : Q := match s with
    | '-' :: _ => Q.ofInt (-1)
    | _ => Q.ofInt 1
  let s1 : PyStr := match s with
    | '+' :: cs => cs
    | '-' :: cs => cs
    | cs => cs
  let intPart := s1.takeWhile isDigit
  let r1 := s1.dropWhile isDigit
  let fracPart : PyStr := match r1 with
    | '.' :: cs => cs.takeWhile isDigit
    | _ => []
  let r2 : PyStr := match r1 with
    | '.' :: cs => cs.dropWhile isDigit
    | _ => r1
  if intPart.isEmpty && fracPart.isEmpty then none
  else
    let mant : Q :=
      (sign.mul (Q.ofInt ((digitsToNat (intPart ++ fracPart) : Nat) : Int))).div
        (Q.powTen ((fracPart.length : Nat) : Int))
    match r2 with
    | [] => some mant
    | 'e' :: es => (parseExpDigits es).map (fun e => mant.mul (Q.powTen e))
    | 'E' :: es => (parseExpDigits es).map (fun e => mant.mul (Q.powTen e))
    | _ => none

/-- Python `float(s)`: strips surrounding spaces, then parses the literal. -/
def pyFloat (s : PyStr) : Option Q :=
  pyFloatCore (((s.dropWhile (· = ' ')).reverse.dropWhile (· = ' ')).reverse)

/-- A calendar date, as produced by `datetime.date`. -/
structure Date where
  year : Nat
  month : Nat
  day : Nat
deriving DecidableEq, Repr

def isLeapYear (y : Nat) : Bool := (y % 4 == 0 && y % 100 != 0) || y % 400 == 0

def daysInMonth (y m : Nat) : Nat :=
  if m = 2 then (if isLeapYear y then 29 else 28)
  else if m = 4 ∨ m = 6 ∨ m = 9 ∨ m = 11 then 30 else 31

/-- Model of `dt.datetime.strptime(x, "%Y%m%d").date()`: a fixed 8-digit
`YYYYMMDD` layout, validating the month and the day of month; `none` models
the `ValueError` raised on anything else. -/
def strptimeYmd (s : PyStr) : Option Date :=
  if s.length == 8 && s.all isDigit then
    let y := digitsToNat (s.take 4)
    let m := digitsToNat ((s.drop 4).take 2)
    let d := digitsToNat (s.drop 6)
    if 1 ≤ m ∧ m ≤ 12 ∧ 1 ≤ d ∧ d ≤ daysInMonth y m then some (Date.mk y m d) else none
  else none

/-- `NoConversion = lambda x: float(x)` -/
def NoConversion (x : String) : Option Q := pyFloat x.data

/-- `MJ_to_J = lambda x: float(x)*1000000.` -/
def MJ_to_J (x : String) : Option Q := (pyFloat x.data).map (fun q => q.mul (Q.ofInt 1000000))

/-- `mm_to_cm = lambda x: float(x)/10.` -/
def mm_to_cm (x : String) : Option Q := (pyFloat x.data).map (fun q => q.div (Q.ofInt 10))

/-- `csvdate_to_date = lambda x: dt.datetime.strptime(x, "%Y%m%d").date()` -/
def csvdate_to_date (x : String) : Option Date := strptimeYmd x.data

/-- The `IRSWeatherDataProvider.translator` table, in source order. -/
def translator : List (String × List String) :=
  [("DAY", ["w_date", "DAY"]),
   ("IRRAD", ["srad", "RADIATION"]),
   ("TMIN", ["tmin", "TEMPERATURE_MIN"]),
   ("TMAX", ["tmax", "TEMPERATURE_MAX"]),
   ("VAP", ["vprs_tx", "VAPOURPRESSURE"]),
   ("WIND", ["wind", "WINDSPEED"]),
   ("RAIN", ["rain", "PRECIPITATION"])]

/-- Header-cell resolution:
`''.join(key for key, value in self.translator.items() if item in value)`. -/
def translateCell (item : String) : String :=
  String.join ((translator.filter (fun kv => decide (item ∈ kv.2))).map Prod.fst)

/-- A converted observation value: a number or a calendar date. -/
inductive Value where
  | num (q : Q)
  | date (d : Date)
deriving DecidableEq, Repr

/-- The `IRSWeatherDataProvider.obs_conversions` dictionary: canonical field
name to conversion function; `none` models the `KeyError` on a missing key. -/
def obs_conversions (k : String) : Option (String → Option Value) :=
  if k = "TMAX" then some (fun s => (NoConversion s).map .num)
  else if k = "TMIN" then some (fun s => (NoConversion s).map .num)
  else if k = "IRRAD" then some (fun s => (MJ_to_J s).map .num)
  else if k = "DAY" then some (fun s => (csvdate_to_date s).map .date)
  else if k = "VAP" then some (fun s => (NoConversion s).map .num)
  else if k = "WIND" then some (fun s => (NoConversion s).map .num)
  else if k = "RAIN" then some (fun s => (mm_to_cm s).map .num)
  else none

/-- Python dict insertion: overwrite the value in place if the key is present,
otherwise append the pair. -/
def dictInsert (d : List (String × String)) (k v : String) : List (String × String) :=
  if d.any (fun p => p.1 == k) then d.map (fun p => if p.1 = k then (k, v) else p)
  else d ++ [(k, v)]

/-- Python `dict(pairs)`: insert the pairs left to right. -/
def pyDict (ps : List (String × String)) : List (String × String) :=
  List.foldl (fun d p => dictInsert d p.1 p.2) [] ps

/-- Python `del d[k]` (guarded in the source by `if k in d`, so modelled as a
plain removal). -/
def dictDel (d : List (String × String)) (k : String) : List (String × String) :=
  d.filter (fun p => p.1 != k)

/-- Errors raised while reading observation rows. -/
inductive ObsError where
  | indexError
  | keyError (k : String)
  | convError (k : String) (v : String)
  | missingField (k : String)
deriving DecidableEq, Repr

/-- The conversion loop `for h in d.keys(): func = self.obs_conversions[h];
d[h] = func(d[h])`, aborting at the first missing key (`KeyError`) or failed
conversion (`ValueError`). -/
def convertAll : List (String × String) → Except ObsError (List (String × Value))
  | [] => .ok []
  | (h, raw) :: rest =>
    match obs_conversions h with
    | none => .error (.keyError h)
    | some f =>
      match f raw with
      | none => .error (.convError h raw)
      | some v =>
        match convertAll rest with
        | .error e => .error e
        | .ok vs => .ok ((h, v) :: vs)

/-- Modelled from the spec: the external `reference_ET` function (in
`pcse.util`, not part of this source tree) is "a pure function taking
latitude, elevation, turbidity A, turbidity B, and the day's meteorological
fields and returning potential ET, open-water ET and reference ET in mm/day".
Its numeric behaviour is abstracted as a parameter of this type; calling it
with a required meteorological field missing raises (`TypeError`), which the
embedding checks through `firstMissing` below. -/
abbrev ETFun := Q → Q → Q → Q → List (String × Value) → Q × Q × Q

/-- Modelled from the spec: the day's meteorological fields required by
`reference_ET` and by the `WeatherDataContainer` — the seven canonical fields
of the data model. -/
def requiredFields : List String :=
  ["DAY", "IRRAD", "TMIN", "TMAX", "VAP", "WIND", "RAIN"]

/-- First required field missing from a converted record, if any. -/
def firstMissing (d : List (String × Value)) : Option String :=
  requiredFields.find? (fun k => !(d.any (fun p => p.1 == k)))

/-- Lookup in a converted record (`d[k]`). -/
def lookupVal (d : List (String × Value)) (k : String) : Option Value :=
  (d.find? (fun p => p.1 == k)).map Prod.snd

/-- Station metadata produced by `_read_meta`. -/
structure Meta where
  latitude : Q
  longitude : Q
  elevation : Q
  angstA : Q
  angstB : Q
deriving DecidableEq, Repr

/-- The series accumulated through `_store_WeatherDataContainer`: the stored
key `d["DAY"]` together with the record. -/
abbrev Series := List (Value × List (String × Value))

/-- Header-row processing in `_read_observations`: `del row[-1]` (an
`IndexError` on an empty row), then translate each remaining cell. -/
def processHeaderRow (row : List String) : Except ObsError (List String) :=
  match row with
  | [] => .error .indexError
  | _ => .ok (row.dropLast.map translateCell)

/-- Data-row processing in `_read_observations`: `del row[-1]`, zip with the
header into a dict, delete the empty-string key, convert every entry, call
`reference_ET` (modelled through `etf` after the required-field check), attach
`E0`, `ES0`, `ET0` divided by 10, and key the record by `d["DAY"]`. -/
def processDataRow (etf : ETFun) (meta : Meta) (header : List String) (row : List String) :
    Except ObsError (Value × List (String × Value)) :=
  match row with
  | [] => .error .indexError
  | _ =>
    let d1 := dictDel (pyDict (header.zip row.dropLast)) ""
    match convertAll d1 with
    | .error e => .error e
    | .ok d2 =>
      match firstMissing d2 with
      | some k => .error (.missingField k)
      | none =>
        let et := etf meta.latitude meta.elevation meta.angstA meta.angstB d2
        let d3 := d2 ++
          [("E0", Value.num (et.1.div (Q.ofInt 10))),
           ("ES0", Value.num (et.2.1.div (Q.ofInt 10))),
           ("ET0", Value.num (et.2.2.div (Q.ofInt 10)))]
        match lookupVal d3 "DAY" with
        | none => .error (.keyError "DAY")
        | some day => .ok (day, d3)

/-- The data-row loop of `_read_observations`: the first failing row aborts
the whole read with its error; nothing is returned in that case. -/
def goRows (etf : ETFun) (meta : Meta) (header : List String) :
    List (List String) → Except ObsError Series
  | [] => .ok []
  | r :: rs =>
    match processDataRow etf meta header r with
    | .error e => .error e
    | .ok entry =>
      match goRows etf meta header rs with
      | .error e => .error e
      | .ok rest => .ok (entry :: rest)

/-- `_read_observations`: the first row is the header, the rest are data. -/
def readObservations (etf : ETFun) (meta : Meta) :
    List (List String) → Except ObsError Series
  | [] => .ok []
  | hrow :: rest =>
    match processHeaderRow hrow with
    | .error e => .error e
    | .ok header => goRows etf meta header rest

/-- Errors raised by `_read_meta`. -/
inductive MetaError where
  | indexErr
  | valueErr (s : PyStr)
deriving DecidableEq, Repr

/-- Modelled from the spec: `check_angstromAB` (in `pcse.util`, not part of
this source tree) range-checks the turbidity coefficients and returns them;
the fixed constants `-0.18` and `-0.55` used by this provider pass the check,
so on them it acts as the identity. -/
def check_angstromAB (a b : Q) : Q × Q := (a, b)

/-- The site tokens built in `__init__`:
`site = csv_file.readline()[1:-1].split(' ')`, where `readline` returns the
first line including its terminator. -/
def siteTokens (line1 : PyStr) : List PyStr := pySplit ' ' (pySlice1m1 line1)

/-- `_read_meta`, in source statement order: `country = site[0].split('/')[1]`
(an `IndexError` when absent), then `longitude = float(site[2].split('=')[1])`,
`latitude = float(site[1].split('=')[1])`,
`elevation = float(site[3].split('=')[1])`, each failing with an `IndexError`
on a missing token or a `ValueError` on a malformed number; finally the fixed
turbidity constants. The free-text comment only feeds the description. -/
def read_meta (site : List PyStr) (_comment : PyStr) : Except MetaError Meta :=
  match site.get? 0 with
  | none => .error .indexErr
  | some s0 =>
    match (pySplit '/' s0).get? 1 with
    | none => .error .indexErr
    | some _country =>
      match site.get? 2 with
      | none => .error .indexErr
      | some lonTok =>
        match (pySplit '=' lonTok).get? 1 with
        | none => .error .indexErr
        | some lonStr =>
          match pyFloat lonStr with
          | none => .error (.valueErr lonStr)
          | some lon =>
            match site.get? 1 with
            | none => .error .indexErr
            | some latTok =>
              match (pySplit '=' latTok).get? 1 with
              | none => .error .indexErr
              | some latStr =>
                match pyFloat latStr with
                | none => .error (.valueErr latStr)
                | some lat =>
                  match site.get? 3 with
                  | none => .error .indexErr
                  | some elevTok =>
                    match (pySplit '=' elevTok).get? 1 with
                    | none => .error .indexErr
                    | some elevStr =>
                      match pyFloat elevStr with
                      | none => .error (.valueErr elevStr)
                      | some elev =>
                        let ab := check_angstromAB (Q.norm (-18) 100) (Q.norm (-55) 100)
                        .ok (Meta.mk lat lon elev ab.1 ab.2)

/-- Python `os.path.basename` for POSIX paths: the part after the last `/`. -/
def pyBasename (p : PyStr) : PyStr := (p.reverse.takeWhile (fun c => c != '/')).reverse

/-- Split a (separator-free) name at its last dot. -/
def splitAtLastDot (b : PyStr) : PyStr × PyStr :=
  let tailLen := (b.reverse.takeWhile (fun c => c != '.')).length
  (b.take (b.length - tailLen - 1), b.drop (b.length - tailLen - 1))

/-- Python `os.path.splitext` on a basename: split at the last dot, except
that leading dots alone never start an extension. -/
def pySplitext (b : PyStr) : PyStr × PyStr :=
  let pre := b.takeWhile (fun c => c == '.')
  let suf := b.drop pre.length
  if suf.contains '.' then splitAtLastDot b else (b, [])

/-- Python `os.path.join` for POSIX paths (two components). -/
def pyJoin (a b : PyStr) : PyStr :=
  if b.head? = some '/' then b
  else if a = [] ∨ a.getLast? = some '/' then a ++ b
  else a ++ '/' :: b

/-- Python `os.path.abspath`, with an explicit current working directory.
Path normalization (collapsing `.`, `..` and duplicate slashes) is not
modelled; no claim depends on it. -/
def pyAbspath (cwd p : PyStr) : PyStr := pyJoin cwd p

/-- `_get_cache_filename`: basename of the source, extension stripped, glued
as `IRSWeatherDataProvider_<name>.cache` into the configured cache directory
(`settings.METEO_CACHE_DIR`, passed here as `cacheDir`). -/
def get_cache_filename (cacheDir : PyStr) (csv_fname : PyStr) : PyStr :=
  let filename := (pySplitext (pyBasename csv_fname)).1
  pyJoin cacheDir (("IRSWeatherDataProvider_").data ++ filename ++ (".cache").data)

/-- A file on disk: its modification time and (for the source file) its
content, presented as `readline` lines — terminator included — followed by
the rows the `csv.reader` yields for the remainder. -/
structure FileData where
  mtime : Q
  line1 : PyStr
  line2 : PyStr
  rows : List (List String)
deriving DecidableEq, Repr

/-- The filesystem: a map from path to file data; `none` means the path does
not exist. -/
structure FileSys where
  files : PyStr → Option FileData

/-- `os.stat(p).st_mtime`, when the path exists. -/
def fsMtime (fs : FileSys) (p : PyStr) : Option Q := (fs.files p).map FileData.mtime

/-- Errors surfaced by `__init__`. -/
inductive InitError where
  | sourceNotFound (p : PyStr)
  | statError
  | cacheLoadError
  | metaError (e : MetaError)
  | obsError (e : ObsError)
deriving DecidableEq, Repr

/-- `_find_cache_file`: `None` (modelled `.ok none`) when the cache file does
not exist or is not strictly newer than the source; the cache path when it
is. `os.stat` on a vanished source would raise, modelled `.error`. -/
def find_cache_file (fs : FileSys) (cacheDir csv_fname : PyStr) :
    Except InitError (Option PyStr) :=
  let cache_filename := get_cache_filename cacheDir csv_fname
  match fsMtime fs cache_filename with
  | none => .ok none
  | some cache_date =>
    match fsMtime fs csv_fname with
    | none => .error .statError
    | some csv_date =>
      if Q.lt csv_date cache_date then .ok (some cache_filename) else .ok none

/-- Modelled from the spec: the outcome of the base class's `_load` (in
`pcse.base_classes`, not part of this source tree) on a cache file — it
either deserializes successfully or raises on a "corrupt or unreadable
cache". -/
inductive LoadOutcome where
  | ok
  | corrupt
deriving DecidableEq, Repr

/-- `_load_cache_file`: `False` on a missing/stale cache, `True` after a
successful `self._load(cache_filename)`. The call to `_load` is not guarded
by any exception handler in the source, so a corrupt cache propagates. -/
def load_cache_file (fs : FileSys) (cacheDir : PyStr) (loadOutcome : PyStr → LoadOutcome)
    (csv_fname : PyStr) : Except InitError Bool :=
  match find_cache_file fs cacheDir csv_fname with
  | .error e => .error e
  | .ok none => .ok false
  | .ok (some cache_filename) =>
    match loadOutcome cache_filename with
    | .ok => .ok true
    | .corrupt => .error .cacheLoadError

/-- Modelled from the spec: the outcome of the base class's `_dump` (in
`pcse.base_classes`, not part of this source tree) — it either serializes the
parsed state to the cache path or raises an environment error ("permission,
disk, path"). -/
inductive DumpOutcome where
  | ok
  | envError (msg : PyStr)
deriving DecidableEq, Repr

/-- The warning text logged by `_write_cache_file` on a failed dump. -/
def cacheWarnMsg (cache_filename e : PyStr) : PyStr :=
  ("Failed to write cache to file ").data ++ cache_filename ++ (" due to: ").data ++ e

/-- `_write_cache_file`: try `self._dump(cache_filename)`; an
`IOError`/`EnvironmentError` is caught and logged as a warning (returned here
as the optional warning text) and never propagates. -/
def write_cache_file (cacheDir : PyStr) (dump : PyStr → DumpOutcome) (csv_fname : PyStr) :
    Option PyStr :=
  let cache_filename := get_cache_filename cacheDir csv_fname
  match dump cache_filename with
  | .ok => none
  | .envError e => some (cacheWarnMsg cache_filename e)

/-- The state the provider construction can end in. -/
inductive InitOutcome where
  | fromCache
  | parsed (meta : Meta) (series : Series) (cacheWarn : Option PyStr)
deriving DecidableEq, Repr

/-- `IRSWeatherDataProvider.__init__`: resolve the path, raise
`PCSEError("Cannot find weather file at: ...")` when it does not exist, try
the cache, and on a cache miss read the two meta lines, the observation rows,
and write the cache. -/
def init (fs : FileSys) (cwd cacheDir : PyStr) (loadOutcome : PyStr → LoadOutcome)
    (dump : PyStr → DumpOutcome) (etf : ETFun) (csv_fname : PyStr) :
    Except InitError InitOutcome :=
  let fp := pyAbspath cwd csv_fname
  match fs.files fp with
  | none => .error (.sourceNotFound fp)
  | some fd =>
    match load_cache_file fs cacheDir loadOutcome fp with
    | .error e => .error e
    | .ok true => .ok .fromCache
    | .ok false =>
      match read_meta (siteTokens fd.line1) (pySlice1m1 fd.line2) with
      | .error e => .error (.metaError e)
      | .ok meta =>
        match readObservations etf meta fd.rows with
        | .error e => .error (.obsError e)
        | .ok series => .ok (.parsed meta series (write_cache_file cacheDir dump fp))

/-- Concrete fixtures used by the witness theorems below. -/
def etf0 : ETFun := fun _ _ _ _ _ => (Q.ofInt 0, Q.ofInt 0, Q.ofInt 0)

def meta0 : Meta :=
  Meta.mk (Q.mk 3 2) (Q.mk 5 2) (Q.mk 7 2) (Q.norm (-18) 100) (Q.norm (-55) 100)

def headerRow0 : List String :=
  ["w_date", "srad", "tmin", "tmax", "vprs_tx", "wind", "rain", ""]

def dataRow0 : List String :=
  ["20150801", "15", "10", "20", "1", "2", "100", ""]

def badDataRow0 : List String :=
  ["20150801", "xx", "10", "20", "1", "2", "100", ""]

def record0 : List (String × Value) :=
  [("DAY", Value.date (Date.mk 2015 8 1)),
   ("IRRAD", Value.num (Q.ofInt 15000000)),
   ("TMIN", Value.num (Q.ofInt 10)),
   ("TMAX", Value.num (Q.ofInt 20)),
   ("VAP", Value.num (Q.ofInt 1)),
   ("WIND", Value.num (Q.ofInt 2)),
   ("RAIN", Value.num (Q.ofInt 10)),
   ("E0", Value.num (Q.ofInt 0)),
   ("ES0", Value.num (Q.ofInt 0)),
   ("ET0", Value.num (Q.ofInt 0))]

def series0 : Series := [(Value.date (Date.mk 2015 8 1), record0)]

def fd0 : FileData :=
  FileData.mk (Q.ofInt 1) (("*S/C lat=1.5 lon=2.5 elev=3.5\n").data) (("*desc\n").data)
    [headerRow0, dataRow0]

def fs0 : FileSys :=
  FileSys.mk (fun p => if p = ("/w/a.csv").data then some fd0 else none)

def cachePath0 : PyStr := get_cache_filename ("/c").data ("/w/a.csv").data

/-- A filesystem that also holds a cache file newer than the source. -/
def fsC : FileSys :=
  FileSys.mk (fun p =>
    if p = ("/w/a.csv").data then some fd0
    else if p = cachePath0 then some (FileData.mk (Q.ofInt 2) [] [] []) else none)

/-- A dump outcome that always fails with an environment error. -/
def dumpFail : PyStr → DumpOutcome := fun _ => .envError (("disk full").data)

/-- Tokens joined by a separator character. -/
def joinSep (sep : Char) : List PyStr → PyStr
  | [] => []
  | [t] => t
  | t :: ts => t ++ sep :: joinSep sep ts

/-! ### Helper lemmas -/

theorem pySplit_ne_nil (sep : Char) (xs : PyStr) : pySplit sep xs ≠ [] := by
  cases xs with
  | nil => simp [pySplit]
  | cons c cs =>
    simp only [pySplit]
    split
    · simp
    · cases h : pySplit sep cs <;> simp

theorem pySplit_no_sep (sep : Char) (xs : PyStr) (h : sep ∉ xs) : pySplit sep xs = [xs] := by
  induction xs with
  | nil => rfl
  | cons c cs ih =>
    simp only [List.mem_cons, not_or] at h
    have hc : ¬ c = sep := fun hcs => h.1 hcs.symm
    simp only [pySplit, if_neg hc, ih h.2]

theorem pySplit_append (sep : Char) (xs ys : PyStr) (h : sep ∉ xs) :
    pySplit sep (xs ++ sep :: ys) = xs :: pySplit sep ys := by
  induction xs with
  | nil => simp [pySplit]
  | cons c cs ih =>
    simp only [List.mem_cons, not_or] at h
    have hc : ¬ c = sep := fun hcs => h.1 hcs.symm
    simp only [List.cons_append, pySplit, if_neg hc, List.append_eq]
    rw [ih h.2]

theorem takeWhile_append_all {α : Type} (p : α → Bool) (l1 l2 : List α)
    (h : ∀ a ∈ l1, p a = true) :
    (l1 ++ l2).takeWhile p = l1 ++ l2.takeWhile p := by
  induction l1 with
  | nil => simp
  | cons a l ih =>
    simp [List.cons_append, List.takeWhile_cons, h a (List.mem_cons_self a l),
      ih (fun b hb => h b (List.mem_cons_of_mem a hb))]

theorem pyBasename_append (xs b : PyStr) (hb : '/' ∉ b) :
    pyBasename (xs ++ '/' :: b) = b := by
  unfold pyBasename
  have h1 : (xs ++ '/' :: b).reverse = b.reverse ++ '/' :: xs.reverse := by
    simp
  rw [h1, takeWhile_append_all _ b.reverse _ ?hall]
  · simp [List.takeWhile_cons]
  case hall =>
    intro a ha
    have : a ∈ b := List.mem_reverse.mp ha
    simp only [bne_iff_ne, ne_eq]
    exact fun hav => hb (hav ▸ this)

theorem convertAll_no_index (d : List (String × String)) (e : ObsError) :
    convertAll d = .error e → e ≠ .indexError := by
  induction d with
  | nil => intro h; simp [convertAll] at h
  | cons p rest ih =>
    intro h
    obtain ⟨k, raw⟩ := p
    simp only [convertAll] at h
    split at h
    · injection h with h1
      subst h1
      simp
    · split at h
      · injection h with h1
        subst h1
        simp
      · split at h
        · next e2 heq =>
          injection h with h1
          subst h1
          exact ih heq
        · cases h

theorem processDataRow_no_index (etf : ETFun) (meta : Meta) (header : List String)
    (row : List String) (hrow : row ≠ []) (e : ObsError)
    (h : processDataRow etf meta header row = .error e) : e ≠ .indexError := by
  cases row with
  | nil => exact absurd rfl hrow
  | cons c cs =>
    simp only [processDataRow] at h
    split at h
    · next e2 heq =>
      injection h with h1
      subst h1
      exact convertAll_no_index _ e2 heq
    · split at h
      · injection h with h1
        subst h1
        simp
      · split at h
        · injection h with h1
          subst h1
          simp
        · cases h

theorem goRows_no_index (etf : ETFun) (meta : Meta) (header : List String)
    (rows : List (List String)) (hrows : ∀ r ∈ rows, r ≠ []) :
    goRows etf meta header rows ≠ .error .indexError := by
  induction rows with
  | nil => simp [goRows]
  | cons r rs ih =>
    intro h
    simp only [goRows] at h
    split at h
    · next e heq =>
      injection h with h1
      subst h1
      exact processDataRow_no_index etf meta header r (hrows r (List.mem_cons_self r rs))
        _ heq rfl
    · split at h
      · next e heq =>
        injection h with h1
        subst h1
        exact ih (fun x hx => hrows x (List.mem_cons_of_mem r hx)) heq
      · cases h

theorem goRows_error_at (etf : ETFun) (meta : Meta) (header : List String)
    (rows : List (List String)) (i : Nat) (badrow : List String) (e : ObsError)
    (hok : ∀ j r, j < i → rows.get? j = some r →
      ∃ out, processDataRow etf meta header r = .ok out)
    (hbad : rows.get? i = some badrow)
    (he : processDataRow etf meta header badrow = .error e) :
    goRows etf meta header rows = .error e := by
  induction rows generalizing i with
  | nil => simp [List.get?] at hbad
  | cons r rs ih =>
    cases i with
    | zero =>
      simp only [List.get?] at hbad
      injection hbad with h1
      subst h1
      simp [goRows, he]
    | succ n =>
      obtain ⟨out, hout⟩ := hok 0 r (Nat.succ_pos n) rfl
      simp only [goRows, hout]
      rw [ih n (fun j x hj hx => hok (j + 1) x (Nat.succ_lt_succ hj) hx) hbad]

theorem goRows_length (etf : ETFun) (meta : Meta) (header : List String)
    (rows : List (List String)) (series : Series)
    (h : goRows etf meta header rows = .ok series) : series.length = rows.length := by
  induction rows generalizing series with
  | nil =>
    simp only [goRows] at h
    injection h with h1
    subst h1
    rfl
  | cons r rs ih =>
    simp only [goRows] at h
    split at h
    · cases h
    · split at h
      · cases h
      · next rest heq =>
        injection h with h1
        subst h1
        simp [ih rest heq]

theorem not_mem_cons_of {α : Type} (a b : α) (l : List α)
    (hne : a ≠ b) (hl : a ∉ l) : a ∉ b :: l := by
  intro h
  rcases List.mem_cons.mp h with h1 | h1
  · exact hne h1
  · exact hl h1

theorem not_mem_append_of {α : Type} (a : α) (l1 l2 : List α)
    (h1 : a ∉ l1) (h2 : a ∉ l2) : a ∉ l1 ++ l2 := by
  intro h
  rcases List.mem_append.mp h with h3 | h3
  · exact h1 h3
  · exact h2 h3

theorem pySplit_joinSep (sep : Char) (t : PyStr) (ts : List PyStr)
    (h : ∀ x ∈ t :: ts, sep ∉ x) :
    pySplit sep (joinSep sep (t :: ts)) = t :: ts := by
  induction ts generalizing t with
  | nil => exact pySplit_no_sep sep t (h t (List.mem_cons_self t []))
  | cons u us ih =>
    have hj : joinSep sep (t :: u :: us) = t ++ sep :: joinSep sep (u :: us) := rfl
    rw [hj, pySplit_append sep t _ (h t (List.mem_cons_self _ _)),
      ih u (fun x hx => h x (List.mem_cons_of_mem t hx))]

theorem find_cache_file_error (fs : FileSys) (cacheDir csv_fname : PyStr) (e : InitError)
    (h : find_cache_file fs cacheDir csv_fname = .error e) : e = .statError := by
  simp only [find_cache_file] at h
  split at h
  · cases h
  · split at h
    · injection h with h1
      exact h1.symm
    · split at h <;> cases h

theorem load_cache_file_error (fs : FileSys) (cacheDir : PyStr)
    (loadOutcome : PyStr → LoadOutcome) (csv_fname : PyStr) (e : InitError)
    (h : load_cache_file fs cacheDir loadOutcome csv_fname = .error e) :
    e = .statError ∨ e = .cacheLoadError := by
  simp only [load_cache_file] at h
  split at h
  · next e2 heq =>
    injection h with h1
    subst h1
    exact Or.inl (find_cache_file_error fs cacheDir csv_fname e2 heq)
  · cases h
  · split at h
    · cases h
    · injection h with h1
      exact Or.inr h1.symm

/-! ### Claim theorems -/

/-- Claim C3 (unit conversion correctness): temperatures, vapour pressure and
wind convert by identity to float; irradiance multiplies the parsed float by
1,000,000, so input "15" yields 15000000.0; precipitation divides by 10, so
input "100" yields 10.0; the date field parses the 8-digit YYYYMMDD layout, so
"20150801" yields the calendar date 2015-08-01. -/
theorem unit_conversion_correctness :
    (∀ x : String, NoConversion x = pyFloat x.data) ∧
    (∀ (x : String) (q : Q), pyFloat x.data = some q →
      MJ_to_J x = some (q.mul (Q.ofInt 1000000)) ∧
      mm_to_cm x = some (q.div (Q.ofInt 10))) ∧
    MJ_to_J "15" = some (Q.ofInt 15000000) ∧
    mm_to_cm "100" = some (Q.ofInt 10) ∧
    csvdate_to_date "20150801" = some (Date.mk 2015 8 1) := by
  refine ⟨fun x => rfl, fun x q h => ⟨?_, ?_⟩, by decide, by decide, by decide⟩
  · simp [MJ_to_J, h]
  · simp [mm_to_cm, h]

theorem unit_conversion_correctness_witness :
    MJ_to_J "2.5" = some ((Q.mk 5 2).mul (Q.ofInt 1000000)) ∧
    mm_to_cm "2.5" = some ((Q.mk 5 2).div (Q.ofInt 10)) :=
  unit_conversion_correctness.2.1 "2.5" (Q.mk 5 2) (by decide)

/-- Claim C5 (header resolution): a header cell contained in some canonical
field's recognized-spelling list resolves to that canonical field; a cell
matching none resolves to the empty-string sentinel; and every entry keyed by
the empty string is dropped from the per-row record (`dict` zip followed by
`del d['']`) before it can reach the conversion registry or the output
record. -/
theorem header_resolution :
    (∀ (item k : String) (spellings : List String),
      (k, spellings) ∈ translator → item ∈ spellings → translateCell item = k) ∧
    (∀ item : String,
      (∀ (k : String) (spellings : List String),
        (k, spellings) ∈ translator → item ∉ spellings) →
      translateCell item = "") ∧
    (∀ (header row : List String) (p : String × String),
      p ∈ dictDel (pyDict (header.zip row)) "" → p.1 ≠ "") := by
  refine ⟨?_, ?_, ?_⟩
  · intro item k spellings hk hi
    simp only [translator, List.mem_cons, List.not_mem_nil, or_false, Prod.mk.injEq] at hk
    rcases hk with ⟨rfl, rfl⟩ | ⟨rfl, rfl⟩ | ⟨rfl, rfl⟩ | ⟨rfl, rfl⟩ | ⟨rfl, rfl⟩ |
      ⟨rfl, rfl⟩ | ⟨rfl, rfl⟩ <;>
      (simp only [List.mem_cons, List.not_mem_nil, or_false] at hi
       rcases hi with rfl | rfl <;> decide)
  · intro item h
    have h1 : item ∉ ["w_date", "DAY"] := h "DAY" _ (by decide)
    have h2 : item ∉ ["srad", "RADIATION"] := h "IRRAD" _ (by decide)
    have h3 : item ∉ ["tmin", "TEMPERATURE_MIN"] := h "TMIN" _ (by decide)
    have h4 : item ∉ ["tmax", "TEMPERATURE_MAX"] := h "TMAX" _ (by decide)
    have h5 : item ∉ ["vprs_tx", "VAPOURPRESSURE"] := h "VAP" _ (by decide)
    have h6 : item ∉ ["wind", "WINDSPEED"] := h "WIND" _ (by decide)
    have h7 : item ∉ ["rain", "PRECIPITATION"] := h "RAIN" _ (by decide)
    simp [translateCell, translator, List.filter, h1, h2, h3, h4, h5, h6, h7, String.join]
  · intro header row p hp
    simp only [dictDel] at hp
    rw [List.mem_filter] at hp
    have h2 := hp.2
    simp only [bne_iff_ne, ne_eq] at h2
    exact h2

theorem header_resolution_witness :
    translateCell "srad" = "IRRAD" :=
  header_resolution.1 "srad" "IRRAD" ["srad", "RADIATION"] (by decide) (by decide)

/-- Claim C10 (implicit non-empty-row precondition): `del row[-1]` is applied
to every row before any other processing, so a zero-cell row raises an
out-of-range indexing error — both as header row and as data row — rather
than a descriptive parse error, and on streams in which every row has at
least one cell the observation reader never raises the indexing error. -/
theorem empty_row_indexing :
    processHeaderRow [] = .error .indexError ∧
    (∀ (etf : ETFun) (meta : Meta) (header : List String),
      processDataRow etf meta header [] = .error .indexError) ∧
    (∀ (etf : ETFun) (meta : Meta) (rows : List (List String)),
      (∀ r ∈ rows, r ≠ []) → readObservations etf meta rows ≠ .error .indexError) := by
  refine ⟨rfl, fun _ _ _ => rfl, ?_⟩
  intro etf meta rows hrows h
  cases rows with
  | nil => simp [readObservations] at h
  | cons hrow rest =>
    simp only [readObservations] at h
    split at h
    · next e heq =>
      cases hrow with
      | nil => exact hrows [] (List.mem_cons_self _ _) rfl
      | cons c cs => simp [processHeaderRow] at heq
    · next header heq =>
      exact goRows_no_index etf meta header rest
        (fun r hr => hrows r (List.mem_cons_of_mem _ hr)) h

theorem empty_row_indexing_witness :
    readObservations etf0 meta0 [headerRow0, dataRow0] ≠ .error .indexError :=
  empty_row_indexing.2.2 etf0 meta0 [headerRow0, dataRow0] (by decide)

/-- Claim C6 (abort on bad row): whenever a data row fails — a required field
missing or a per-field conversion failing, or any other per-row error — and
all rows before it succeed, the whole observation read returns exactly that
row's error: no row is skipped and no partial series is returned (the second
part shows a successful read returns one record per data row, so success
never silently drops rows either). -/
theorem abort_on_bad_row (etf : ETFun) (meta : Meta) (hrow : List String)
    (rows : List (List String)) (header : List String)
    (hh : processHeaderRow hrow = .ok header) :
    (∀ (i : Nat) (badrow : List String) (e : ObsError),
      (∀ j r, j < i → rows.get? j = some r →
        ∃ out, processDataRow etf meta header r = .ok out) →
      rows.get? i = some badrow →
      processDataRow etf meta header badrow = .error e →
      readObservations etf meta (hrow :: rows) = .error e) ∧
    (∀ series : Series, readObservations etf meta (hrow :: rows) = .ok series →
      series.length = rows.length) := by
  constructor
  · intro i badrow e hok hbad he
    simp only [readObservations, hh]
    exact goRows_error_at etf meta header rows i badrow e hok hbad he
  · intro series hs
    simp only [readObservations, hh] at hs
    exact goRows_length etf meta header rows series hs

theorem abort_on_bad_row_witness :
    readObservations etf0 meta0 [headerRow0, badDataRow0] =
      .error (.convError "IRRAD" "xx") :=
  (abort_on_bad_row etf0 meta0 headerRow0 [badDataRow0]
      ["DAY", "IRRAD", "TMIN", "TMAX", "VAP", "WIND", "RAIN"] (by decide)).1
    0 badDataRow0 (.convError "IRRAD" "xx")
    (fun j r hj _ => absurd hj (Nat.not_lt_zero j)) (by decide) (by decide)

/-- Claim C1 (cache validity): with the source file present, `_find_cache_file`
returns absent when no cache file exists at the derived path, or when the
cache file's mtime is not strictly newer than the source's (in particular
after the source mtime is bumped past the cache's); it returns the cache path
when the cache mtime is strictly newer; none of these outcomes raises. -/
theorem cache_validity (fs : FileSys) (cacheDir csv_fname : PyStr) (ts : Q)
    (hsrc : fsMtime fs csv_fname = some ts) :
    (fsMtime fs (get_cache_filename cacheDir csv_fname) = none →
      find_cache_file fs cacheDir csv_fname = .ok none) ∧
    (∀ tc : Q, fsMtime fs (get_cache_filename cacheDir csv_fname) = some tc →
      (¬ Q.lt ts tc → find_cache_file fs cacheDir csv_fname = .ok none) ∧
      (Q.lt ts tc → find_cache_file fs cacheDir csv_fname =
        .ok (some (get_cache_filename cacheDir csv_fname)))) := by
  constructor
  · intro h
    simp [find_cache_file, h]
  · intro tc hc
    constructor
    · intro hlt
      simp [find_cache_file, hc, hsrc, hlt]
    · intro hlt
      simp [find_cache_file, hc, hsrc, hlt]

theorem cache_validity_witness :
    find_cache_file fsC ("/c").data ("/w/a.csv").data =
      .ok (some (get_cache_filename ("/c").data ("/w/a.csv").data)) :=
  ((cache_validity fsC ("/c").data ("/w/a.csv").data (Q.ofInt 1) (by decide)).2
    (Q.ofInt 2) (by decide)).2 (by decide)

/-- Claim C9 (cache-name determinism): the derived cache path depends only on
the fixed provider class name and the source file's extension-stripped base
name, joined into the fixed cache directory with the `.cache` suffix; in
particular two source paths in different directories with the same base name
derive equal cache paths. -/
theorem cache_name_determinism (cacheDir : PyStr) :
    (∀ p q : PyStr, (pySplitext (pyBasename p)).1 = (pySplitext (pyBasename q)).1 →
      get_cache_filename cacheDir p = get_cache_filename cacheDir q) ∧
    (∀ d1 d2 b : PyStr, '/' ∉ b →
      get_cache_filename cacheDir (d1 ++ '/' :: b) =
        get_cache_filename cacheDir (d2 ++ '/' :: b)) := by
  constructor
  · intro p q h
    simp only [get_cache_filename, h]
  · intro d1 d2 b hb
    simp only [get_cache_filename, pyBasename_append d1 b hb, pyBasename_append d2 b hb]

theorem cache_name_determinism_witness :
    get_cache_filename ("/c").data (("/w").data ++ '/' :: ("a.csv").data) =
      get_cache_filename ("/c").data (("/x").data ++ '/' :: ("a.csv").data) :=
  (cache_name_determinism ("/c").data).2 ("/w").data ("/x").data ("a.csv").data (by decide)

/-- Claim C8 (missing source is the only unconditional fatal error): when the
resolved absolute path does not exist, construction raises the
source-not-found error — whatever the cache, the load and dump outcomes and
the file contents, showing the check precedes any file or cache access — and
when the path does exist that error is never raised. -/
theorem missing_source_fatal (fs : FileSys) (cwd cacheDir : PyStr)
    (loadOutcome : PyStr → LoadOutcome) (dump : PyStr → DumpOutcome) (etf : ETFun)
    (csv_fname : PyStr) :
    (fs.files (pyAbspath cwd csv_fname) = none →
      init fs cwd cacheDir loadOutcome dump etf csv_fname =
        .error (.sourceNotFound (pyAbspath cwd csv_fname))) ∧
    (∀ fd : FileData, fs.files (pyAbspath cwd csv_fname) = some fd →
      ∀ p : PyStr, init fs cwd cacheDir loadOutcome dump etf csv_fname ≠
        .error (.sourceNotFound p)) := by
  constructor
  · intro h
    simp [init, h]
  · intro fd hf p h
    simp only [init, hf] at h
    split at h
    · next e heq =>
      injection h with h1
      subst h1
      rcases load_cache_file_error fs cacheDir loadOutcome _ _ heq with h2 | h2 <;> cases h2
    · cases h
    · split at h
      · injection h with h1
        cases h1
      · split at h
        · injection h with h1
          cases h1
        · cases h

theorem missing_source_fatal_witness :
    init (FileSys.mk fun _ => none) ("/w").data ("/c").data (fun _ => .ok) (fun _ => .ok)
      etf0 ("a.csv").data = .error (.sourceNotFound (pyAbspath ("/w").data ("a.csv").data)) :=
  (missing_source_fatal (FileSys.mk fun _ => none) ("/w").data ("/c").data (fun _ => .ok)
    (fun _ => .ok) etf0 ("a.csv").data).1 rfl

/-- Claim C2 counterexample: a cache file that exists and passes the mtime
validity check (mtime 2 over source mtime 1) but is corrupt makes provider
construction propagate the load failure — `_load_cache_file` calls
`self._load` without any exception handler — instead of falling through to a
re-parse of the source. -/
theorem cache_read_failure_cex :
    init fsC ("/w").data ("/c").data (fun _ => .corrupt) (fun _ => .ok) etf0
      ("a.csv").data = .error .cacheLoadError := by decide

/-- Claim C2 as amended: for every cache file that exists and passes the
mtime validity check but whose contents are corrupt or unreadable, the read
failure propagates out of `_load_cache_file` and provider construction fails;
it is not treated as a cache miss and the source is not re-parsed. -/
theorem cache_read_failure_propagates (fs : FileSys) (cwd cacheDir : PyStr)
    (loadOutcome : PyStr → LoadOutcome) (dump : PyStr → DumpOutcome) (etf : ETFun)
    (csv_fname : PyStr) (fd : FileData) (tc : Q)
    (hf : fs.files (pyAbspath cwd csv_fname) = some fd)
    (hc : fsMtime fs (get_cache_filename cacheDir (pyAbspath cwd csv_fname)) = some tc)
    (hnew : Q.lt fd.mtime tc)
    (hcorrupt : loadOutcome (get_cache_filename cacheDir (pyAbspath cwd csv_fname)) =
      .corrupt) :
    init fs cwd cacheDir loadOutcome dump etf csv_fname = .error .cacheLoadError := by
  have hsrc : fsMtime fs (pyAbspath cwd csv_fname) = some fd.mtime := by
    simp [fsMtime, hf]
  have hfind : find_cache_file fs cacheDir (pyAbspath cwd csv_fname) =
      .ok (some (get_cache_filename cacheDir (pyAbspath cwd csv_fname))) := by
    simp [find_cache_file, hc, hsrc, hnew]
  simp [init, hf, load_cache_file, hfind, hcorrupt]

theorem cache_read_failure_propagates_witness :
    init fsC ("/w").data ("/c").data (fun p => if p = cachePath0 then .corrupt else .ok)
      (fun _ => .ok) etf0 ("a.csv").data = .error .cacheLoadError :=
  cache_read_failure_propagates fsC ("/w").data ("/c").data
    (fun p => if p = cachePath0 then .corrupt else .ok) (fun _ => .ok) etf0 ("a.csv").data
    fd0 (Q.ofInt 2) (by decide) (by decide) (by decide) (by decide)

/-- Claim C7 (cache-write failure is non-fatal): on a cache miss with a
well-formed source, construction succeeds with the freshly parsed result for
every dump outcome; a failing dump is caught inside `_write_cache_file` and
only surfaces as the logged warning text. -/
theorem cache_write_failure_nonfatal (fs : FileSys) (cwd cacheDir : PyStr)
    (loadOutcome : PyStr → LoadOutcome) (etf : ETFun) (csv_fname : PyStr) (fd : FileData)
    (meta : Meta) (series : Series)
    (hf : fs.files (pyAbspath cwd csv_fname) = some fd)
    (hmiss : find_cache_file fs cacheDir (pyAbspath cwd csv_fname) = .ok none)
    (hmeta : read_meta (siteTokens fd.line1) (pySlice1m1 fd.line2) = .ok meta)
    (hobs : readObservations etf meta fd.rows = .ok series) :
    ∀ dump : PyStr → DumpOutcome,
      init fs cwd cacheDir loadOutcome dump etf csv_fname =
        .ok (.parsed meta series (write_cache_file cacheDir dump (pyAbspath cwd csv_fname))) ∧
      ∀ e : PyStr, dump (get_cache_filename cacheDir (pyAbspath cwd csv_fname)) = .envError e →
        write_cache_file cacheDir dump (pyAbspath cwd csv_fname) =
          some (cacheWarnMsg (get_cache_filename cacheDir (pyAbspath cwd csv_fname)) e) := by
  intro dump
  constructor
  · simp [init, hf, load_cache_file, hmiss, hmeta, hobs]
  · intro e he
    simp [write_cache_file, he]

theorem cache_write_failure_nonfatal_witness :
    init fs0 ("/w").data ("/c").data (fun _ => .ok) dumpFail etf0 ("a.csv").data =
      .ok (.parsed meta0 series0
        (write_cache_file ("/c").data dumpFail (pyAbspath ("/w").data ("a.csv").data))) ∧
    ∀ e : PyStr,
      dumpFail (get_cache_filename ("/c").data (pyAbspath ("/w").data ("a.csv").data)) =
        .envError e →
      write_cache_file ("/c").data dumpFail (pyAbspath ("/w").data ("a.csv").data) =
        some (cacheWarnMsg
          (get_cache_filename ("/c").data (pyAbspath ("/w").data ("a.csv").data)) e) :=
  cache_write_failure_nonfatal fs0 ("/w").data ("/c").data (fun _ => .ok) etf0
    ("a.csv").data fd0 meta0 series0 (by decide) (by decide) (by decide) (by decide) dumpFail

/-- Claim C4 counterexample: the first line of a source file wrapped in single
marker characters at line start AND line end. `readline` returns the line with
its terminating newline, and `[1:-1]` removes the first character and that
newline — not the trailing marker — so the marker stays glued to the
elevation token and `float("3.5*")` raises a `ValueError` instead of the
parse yielding the numbers written in the file. -/
theorem site_line_trailing_marker_cex :
    read_meta (siteTokens (("*S/C lat=1.5 lon=2.5 elev=3.5*\n").data)) (("d").data) =
      .error (.valueErr (("3.5*").data)) := by decide

/-- Claim C4 as amended: the meta reader strips one leading marker character
and the trailing newline (not a trailing marker) from the raw line before
splitting on spaces; for every site line carrying a leading marker and no
trailing marker it parses latitude from token 1, longitude from token 2 and
elevation from token 3 (the value after the equals sign in each), yielding
exactly the numbers written in the file. -/
theorem site_line_parsing_amended (m : Char) (st co sa sb se : PyStr) (la lo el : Q)
    (comment : PyStr)
    (hst : ' ' ∉ st) (hstS : '/' ∉ st) (hco : ' ' ∉ co)
    (hsa : ' ' ∉ sa) (hsaE : '=' ∉ sa)
    (hsb : ' ' ∉ sb) (hsbE : '=' ∉ sb)
    (hse : ' ' ∉ se) (hseE : '=' ∉ se)
    (ha : pyFloat sa = some la) (hb : pyFloat sb = some lo) (he : pyFloat se = some el) :
    read_meta (siteTokens (m :: (joinSep ' '
        [st ++ '/' :: co,
         'l' :: 'a' :: 't' :: '=' :: sa,
         'l' :: 'o' :: 'n' :: '=' :: sb,
         'e' :: 'l' :: 'e' :: 'v' :: '=' :: se] ++ ['\n'])))
      comment = .ok (Meta.mk la lo el (Q.norm (-18) 100) (Q.norm (-55) 100)) := by
  have hmem : ∀ x ∈ ([st ++ '/' :: co,
      'l' :: 'a' :: 't' :: '=' :: sa,
      'l' :: 'o' :: 'n' :: '=' :: sb,
      'e' :: 'l' :: 'e' :: 'v' :: '=' :: se] : List PyStr), ' ' ∉ x := by
    intro x hx
    simp only [List.mem_cons, List.not_mem_nil, or_false] at hx
    rcases hx with rfl | rfl | rfl | rfl
    · exact not_mem_append_of _ _ _ hst (not_mem_cons_of _ _ _ (by decide) hco)
    · exact not_mem_cons_of _ _ _ (by decide) (not_mem_cons_of _ _ _ (by decide)
        (not_mem_cons_of _ _ _ (by decide) (not_mem_cons_of _ _ _ (by decide) hsa)))
    · exact not_mem_cons_of _ _ _ (by decide) (not_mem_cons_of _ _ _ (by decide)
        (not_mem_cons_of _ _ _ (by decide) (not_mem_cons_of _ _ _ (by decide) hsb)))
    · exact not_mem_cons_of _ _ _ (by decide) (not_mem_cons_of _ _ _ (by decide)
        (not_mem_cons_of _ _ _ (by decide) (not_mem_cons_of _ _ _ (by decide)
          (not_mem_cons_of _ _ _ (by decide) hse))))
  have hsite : siteTokens (m :: (joinSep ' '
      [st ++ '/' :: co,
       'l' :: 'a' :: 't' :: '=' :: sa,
       'l' :: 'o' :: 'n' :: '=' :: sb,
       'e' :: 'l' :: 'e' :: 'v' :: '=' :: se] ++ ['\n'])) =
      [st ++ '/' :: co,
       'l' :: 'a' :: 't' :: '=' :: sa,
       'l' :: 'o' :: 'n' :: '=' :: sb,
       'e' :: 'l' :: 'e' :: 'v' :: '=' :: se] := by
    unfold siteTokens pySlice1m1
    simp only [List.drop_succ_cons, List.drop_zero, List.dropLast_concat]
    exact pySplit_joinSep ' ' _ _ hmem
  obtain ⟨chd, ctl, hct⟩ := List.exists_cons_of_ne_nil (pySplit_ne_nil '/' co)
  have e1 : pySplit '/' (st ++ '/' :: co) = st :: chd :: ctl := by
    rw [pySplit_append '/' st co hstS, hct]
  have e2 : pySplit '=' sa = [sa] := pySplit_no_sep '=' sa hsaE
  have e3 : pySplit '=' sb = [sb] := pySplit_no_sep '=' sb hsbE
  have e4 : pySplit '=' se = [se] := pySplit_no_sep '=' se hseE
  rw [hsite]
  simp only [read_meta, List.get?, e1, e2, e3, e4, ha, hb, he, check_angstromAB]

theorem site_line_parsing_amended_witness :
    read_meta (siteTokens (('*' : Char) :: (joinSep ' '
        [("S").data ++ '/' :: ("C").data,
         'l' :: 'a' :: 't' :: '=' :: ("1.5").data,
         'l' :: 'o' :: 'n' :: '=' :: ("2.5").data,
         'e' :: 'l' :: 'e' :: 'v' :: '=' :: ("3.5").data] ++ ['\n'])))
      (("d").data) =
      .ok (Meta.mk (Q.mk 3 2) (Q.mk 5 2) (Q.mk 7 2) (Q.norm (-18) 100) (Q.norm (-55) 100)) :=
  site_line_parsing_amended '*' ("S").data ("C").data ("1.5").data ("2.5").data ("3.5").data
    (Q.mk 3 2) (Q.mk 5 2) (Q.mk 7 2) (("d").data)
    (by decide) (by decide) (by decide) (by decide) (by decide) (by decide) (by decide)
    (by decide) (by decide) (by decide) (by decide) (by decide)
